import Mathlib

/-!
Shallow embedding of the `japyc` translation-and-lowering pipeline
(`src/02-compiler/japyc/nodes.py` and `src/02-compiler/japyc/japyc.py`).

The Python sources walk an externally parsed syntax tree (`ast` module),
translate it into a typed IR (`Japyc*` node classes) while maintaining a
constant table, and lower the IR to llvmlite instructions.  Python integers
are unbounded, so integer values are embedded as `Int`.  Python exceptions
are embedded as an explicit error type; attribute and key errors that the
interpreter would raise at runtime are modelled as distinct error values.
The recursive visitors are embedded as fuel-indexed interpreters: fuel `0`
yields a distinguished `outOfFuel` error, and every theorem quantifies over
the fuel, so a successful run at any fuel reflects a real run of the code.
-/

/-- The binary operators of the external syntax tree (`ast.Add`, `ast.Mult`,
and representatives of the remaining, unsupported operator classes such as
`ast.Sub` and `ast.Div`). -/
inductive PyOp where
  | add
  | mult
  | sub
  | div
deriving DecidableEq, Repr

/-- Values carried by an `ast.Constant` node: Python `int`, `str`, `None`,
or anything else (floats, bytes, ...). -/
inductive PyConstVal where
  | int (n : Int)
  | str (s : String)
  | pynone
  | otherVal
deriving DecidableEq, Repr

/-- The external syntax tree (the relevant fragment of Python's `ast`
module).  `other kind` stands for any further `ast` node class, identified
only by its class name, for which the translator registers nothing. -/
inductive PyAst where
  | module (body : List PyAst)
  | functionDef (name : String) (args : List (String × Option PyAst))
      (body : List PyAst) (returns : Option PyAst) (decorator_list : List PyAst)
  | classDef (name : String) (body : List PyAst) (decorator_list : List PyAst)
  | assign (targets : List PyAst) (value : PyAst)
  | pyname (id : String)
  | pyconstant (value : PyConstVal)
  | pyattribute (value : PyAst) (attr : String)
  | pycall (func : PyAst) (args : List PyAst) (keywords : List (String × PyAst))
  | pybinop (op : PyOp) (left : PyAst) (right : PyAst)
  | pyexpr (value : PyAst)
  | other (kind : String)

/-- llvmlite types used by the compiler: `ir.IntType(w)`, `ir.VoidType()`,
and `t.as_pointer()`. -/
inductive LLVMType where
  | int (width : Nat)
  | void
  | ptr (pointee : LLVMType)
deriving DecidableEq, Repr

/-- The `integer_types` table of `nodes.py`: annotation name to llvm type. -/
def integer_types : List (String × LLVMType) :=
  [("int8", .int 8), ("int16", .int 16), ("int32", .int 32), ("int64", .int 64)]

/-- The typed IR produced by translation (the `Japyc*` node classes).
`JapycVariable` is constructed sometimes with one and sometimes with two
positional arguments in the source, so its `type` field is optional (an
unset attribute).  Function arguments are `JapycVariable(name, type)` pairs
whose type is always set, embedded directly as pairs. -/
inductive JapycNode where
  | module (body : List JapycNode)
  | functionDef (name : String) (args : List (String × LLVMType))
      (body : List JapycNode) (return_type : LLVMType)
  | variable (name : String) (type : Option LLVMType)
  | integer (value : Int) (type : Option LLVMType)
  | binop (op : PyOp) (left : JapycNode) (right : JapycNode)
  | poke (address : JapycNode) (value : JapycNode) (type : LLVMType)
  | functionCall (fn : String) (args : List JapycNode)
  | enumDecl
  | constDecl

/-- An entry of the constant table: `constants[name]` is either a Python
`int` (a named constant) or a `dict` of member name to `int` (an enum). -/
inductive ConstVal where
  | int (n : Int)
  | enum (fields : List (String × Int))
deriving DecidableEq, Repr

/-- The constant table (`self.constants` of `JapycVisitor`), an association
list with Python-`dict` insert-or-overwrite semantics. -/
def Consts := List (String × ConstVal)
deriving DecidableEq, Repr

/-- `name in constants` / `constants[name]` lookup. -/
def constsGet (c : Consts) (k : String) : Option ConstVal :=
  match c with
  | [] => none
  | (k', v) :: rest => if k' = k then some v else constsGet rest k

/-- `constants[name] = value`: overwrite if present, append otherwise. -/
def constsSet (c : Consts) (k : String) (v : ConstVal) : Consts :=
  match c with
  | [] => [(k, v)]
  | (k', v') :: rest =>
      if k' = k then (k, v) :: rest else (k', v') :: constsSet rest k v

/-- `dict` insert for an enum's member table. -/
def fieldsSet (fs : List (String × Int)) (k : String) (v : Int) :
    List (String × Int) :=
  match fs with
  | [] => [(k, v)]
  | (k', v') :: rest =>
      if k' = k then (k, v) :: rest else (k', v') :: fieldsSet rest k v

/-- Errors a compilation can raise.  `japycError` is `errors.JapycError`
(the semantic-error family); `notImplementedError` is Python's
`NotImplementedError` (raised by `generic_visit` for unsupported syntax and
by `_do_op` for unsupported operators); the remaining constructors are the
interpreter-level exceptions the code can run into (`AttributeError`,
`KeyError`, `UnboundLocalError`); `outOfFuel` only signals that the
fuel-indexed embedding was run with insufficient fuel. -/
inductive Err where
  | japycError (msg : String)
  | notImplementedError (msg : String)
  | attributeError
  | keyError (key : String)
  | unboundLocalError
  | outOfFuel
deriving DecidableEq, Repr

/-- Python `s.startswith(p)` over code points (Lean's byte-based
`String.startsWith` does not reduce in the kernel; for the ASCII names
involved the two agree). -/
def chrsPre : List Char → List Char → Bool
  | [], _ => true
  | _ :: _, [] => false
  | a :: as, b :: bs => a == b && chrsPre as bs

/-- Python `s.startswith(p)`. -/
def pyStartsWith (s p : String) : Bool := chrsPre p.data s.data

/-- Python `s[n:]` (slicing is by code points). -/
def pyDrop (s : String) (n : Nat) : String := .mk (s.data.drop n)

/-- Python `int(s)` for a string of decimal digits. -/
def pyToNat (s : String) : Nat :=
  s.data.foldl (fun acc ch => acc * 10 + (ch.toNat - 48)) 0

/-- `node.func.id` / `decorator.id`: reading the `id` attribute raises
`AttributeError` unless the node is an `ast.Name`. -/
def getId : PyAst → Except Err String
  | .pyname id => .ok id
  | _ => .error .attributeError

/-- Association-list lookup for `integer_types`. -/
def lookupStr (l : List (String × LLVMType)) (k : String) : Option LLVMType :=
  match l with
  | [] => none
  | (k', v) :: rest => if k' = k then some v else lookupStr rest k

/-- `enum_fields[attr]` lookup. -/
def fieldsGet (fs : List (String × Int)) (k : String) : Option Int :=
  match fs with
  | [] => none
  | (k', v) :: rest => if k' = k then some v else fieldsGet rest k

/-- `JapycInteger.create_from_node` (`nodes.py:166-195`): builds an integer
literal from an `ast.Constant` (int, or one-character ASCII string), an
`ast.Name` bound in the constant table, or an `ast.Attribute` resolving an
enum member; declines (`None`) on anything else, including every
`ast.Call`. -/
def JapycInteger.create_from_node (constants : Consts) (node : PyAst) :
    Except Err (Option JapycNode) :=
  match node with
  | .pyconstant (.int n) => .ok (some (.integer n none))
  | .pyconstant (.str s) =>
      match s.data with
      | [ch] =>
          if ch.toNat < 128 then .ok (some (.integer ch.toNat none)) else .ok none
      | _ => .ok none
  | .pyconstant _ => .ok none
  | .pyname id =>
      match constsGet constants id with
      | some (.int n) => .ok (some (.integer n none))
      | some (.enum _) => .error (.japycError (id ++ " is an enum, not a constant"))
      | none => .ok none
  | .pyattribute (.pyname base) attr =>
      match constsGet constants base with
      | none => .ok none
      | some (.int _) =>
          .error (.japycError (base ++ " is a constant, not an enum"))
      | some (.enum fields) =>
          match fieldsGet fields attr with
          | some v => .ok (some (.integer v none))
          | none =>
              .error (.japycError
                (attr ++ " is not a member of the " ++ base ++ " enum"))
  | .pyattribute _ _ => .ok none
  | .pycall _ _ _ => .ok none
  | _ => .ok none

/-- `JapycVariable.create_from_node` (`nodes.py:100-102`): wraps an
`ast.Name`, leaving the `type` attribute unset. -/
def JapycVariable.create_from_node (id : String) : JapycNode :=
  .variable id none

/-- One member assignment of an enum body (`nodes.py:259-269`): must be a
single-target assignment of a number to a name. -/
def enumField (node : PyAst) : Except Err (String × Int) :=
  match node with
  | .assign targets value =>
      match targets with
      | [t] =>
          match t with
          | .pyname tid =>
              match value with
              | .pyconstant (.int n) => .ok (tid, n)
              | _ => .error (.japycError "Error in _japyc_Enum: not assigning a number")
          | _ => .error (.japycError "Error in _japyc_Enum: not assigning to a name")
      | _ => .error (.japycError "Error in _japyc_Enum: multiple targets to assignment")
  | _ => .error (.japycError "Error in _japyc_Enum: not an assignment")

/-- The loop of `JapycEnum.create_from_node` building `enum_fields`. -/
def enumFields (body : List PyAst) (acc : List (String × Int)) :
    Except Err (List (String × Int)) :=
  match body with
  | [] => .ok acc
  | n :: rest => do
      let (k, v) ← enumField n
      enumFields rest (fieldsSet acc k v)

/-- `JapycEnum.create_from_node` (`nodes.py:251-271`): recognized only for a
`ClassDef` carrying exactly the `_japyc_Enum` decorator; parses the body
into a member table and stores it under the class name — overwriting any
existing entry, there is no duplicate check. -/
def JapycEnum.create_from_node (constants : Consts) (name : String)
    (body : List PyAst) (decorator_list : List PyAst) :
    Except Err (Option (JapycNode × Consts)) :=
  match decorator_list with
  | [dec] => do
      let did ← getId dec
      if did = "_japyc_Enum" then do
        let fields ← enumFields body []
        .ok (some (.enumDecl, constsSet constants name (.enum fields)))
      else
        .ok none
  | _ => .ok none

/-- `JapycConst.create_from_node` (`nodes.py:278-295`): recognized for a
`Call` whose target name starts with `_japyc_const`; requires exactly one
integer-valued keyword argument; redeclaring an existing name is an error. -/
def JapycConst.create_from_node (constants : Consts) (func : PyAst)
    (keywords : List (String × PyAst)) :
    Except Err (Option (JapycNode × Consts)) := do
  let id ← getId func
  if pyStartsWith id "_japyc_const" then
    match keywords with
    | [(kwname, kwvalue)] =>
        match kwvalue with
        | .pyconstant (.int v) =>
            match constsGet constants kwname with
            | some _ =>
                .error (.japycError
                  "Error in _japyc_constant: constant previously defined")
            | none => .ok (some (.constDecl, constsSet constants kwname (.int v)))
        | _ =>
            .error (.japycError
              "Error in _japyc_constant: assignment must be an integer")
    | _ =>
        .error (.japycError
          "Error in _japyc_constant: exactly one keyword per call")
  else
    .ok none

/-- `isinstance(x, JapycInteger)`. -/
def isJapycInteger : JapycNode → Bool
  | .integer _ _ => true
  | _ => false

/-- The `value` attribute of a `JapycInteger` node; only ever read under an
`isinstance(_, JapycInteger)` guard in the source, so the default branch is
unreachable. -/
def intValue : JapycNode → Int
  | .integer v _ => v
  | _ => 0

/-- The argument-annotation check loop of `JapycFunctionDef.create_from_node`
(`nodes.py:62-68`): every positional argument must carry an annotation that
is a name bound in `integer_types`; the typed argument list is built from
the same lookups. -/
def checkArgs : List (String × Option PyAst) → Except Err (List (String × LLVMType))
  | [] => .ok []
  | (argName, ann) :: rest =>
      match ann with
      | none => .error (.japycError "argument is missing type annotation")
      | some a => do
          let aid ← getId a
          match lookupStr integer_types aid with
          | none => .error (.japycError "argument has invalid simple type")
          | some ty => do
              let tail ← checkArgs rest
              .ok ((argName, ty) :: tail)

/-- The return-annotation logic of `JapycFunctionDef.create_from_node`
(`nodes.py:69-79`).  For an `ast.Name` annotation whose id is in
`integer_types`, the source then evaluates `integer_types[node.returns.value]`,
but an `ast.Name` has no `value` attribute, so this path raises
`AttributeError` instead of producing an integer return type.  For an
annotation that is neither a name nor a constant, neither branch assigns
`return_type` and the final use raises `UnboundLocalError`. -/
def returnType (returns : Option PyAst) : Except Err LLVMType :=
  match returns with
  | none => .error (.japycError "missing return type definition")
  | some (.pyname rid) =>
      if (lookupStr integer_types rid).isSome then
        .error .attributeError
      else
        .error (.japycError "invalid return type")
  | some (.pyconstant .pynone) => .ok .void
  | some (.pyconstant _) => .error (.japycError "invalid return type")
  | some _ => .error .unboundLocalError

mutual

/-- `JapycVisitor.visit` (`ast.NodeVisitor.visit` with the single override
`visit_Expr`, `japyc.py:89-90`): an `Expr` wrapper is stripped by visiting
its value; every other node goes to `generic_visit`.  The first argument is
fuel for the fuel-indexed embedding of the recursion; fuel is consumed at
every call so that the mutual recursion is structural on it. -/
def visit : Nat → Consts → PyAst → Except Err (JapycNode × Consts)
  | 0, _, _ => .error .outOfFuel
  | fuel + 1, c, .pyexpr v => visit fuel c v
  | fuel + 1, c, n => generic_visit fuel c n

/-- `JapycVisitor.generic_visit` (`japyc.py:92-104`): try the non-default
candidate builders registered for the node's class in registration order
(which is the alphabetical `dir(nodes)` order), take the first that returns
a node, fall back to the default builder for the class, and raise
`NotImplementedError` if neither exists.  The candidate lists realized by
the registry construction (`japyc.py:61-86`) are: `Call` ->
[`JapycConst`, `JapycInteger`, `JapycPoke`] with default
`JapycFunctionCall`; `Name` -> [`JapycInteger`] with default
`JapycVariable`; `Constant`, `Attribute` -> [`JapycInteger`] with no
default; `ClassDef` -> [`JapycEnum`] with no default; `Module`,
`FunctionDef`, `BinOp` -> default only. -/
def generic_visit : Nat → Consts → PyAst → Except Err (JapycNode × Consts)
  | 0, _, _ => .error .outOfFuel
  | fuel + 1, c, n =>
    match n with
    | .module body => JapycModule.create_from_node fuel c body
    | .functionDef name args body returns _ =>
        JapycFunctionDef.create_from_node fuel c name args body returns
    | .pyname id =>
        match JapycInteger.create_from_node c (.pyname id) with
        | .error e => .error e
        | .ok (some r) => .ok (r, c)
        | .ok none => .ok (JapycVariable.create_from_node id, c)
    | .pyconstant v =>
        match JapycInteger.create_from_node c (.pyconstant v) with
        | .error e => .error e
        | .ok (some r) => .ok (r, c)
        | .ok none => .error (.notImplementedError "Unimplemented node: Constant")
    | .pyattribute value attr =>
        match JapycInteger.create_from_node c (.pyattribute value attr) with
        | .error e => .error e
        | .ok (some r) => .ok (r, c)
        | .ok none => .error (.notImplementedError "Unimplemented node: Attribute")
    | .pycall func args keywords =>
        match JapycConst.create_from_node c func keywords with
        | .error e => .error e
        | .ok (some (r, c')) => .ok (r, c')
        | .ok none =>
            match JapycInteger.create_from_node c (.pycall func args keywords) with
            | .error e => .error e
            | .ok (some r) => .ok (r, c)
            | .ok none =>
                match JapycPoke.create_from_node fuel c func args with
                | .error e => .error e
                | .ok (some (r, c')) => .ok (r, c')
                | .ok none => JapycFunctionCall.create_from_node fuel c func args
    | .pybinop op left right => JapycBinOp.create_from_node fuel c op left right
    | .classDef name body decorator_list =>
        match JapycEnum.create_from_node c name body decorator_list with
        | .error e => .error e
        | .ok (some (r, c')) => .ok (r, c')
        | .ok none => .error (.notImplementedError "Unimplemented node: ClassDef")
    | .assign _ _ => .error (.notImplementedError "Unimplemented node: Assign")
    | .pyexpr _ => .error (.notImplementedError "Unimplemented node: Expr")
    | .other kind => .error (.notImplementedError ("Unimplemented node: " ++ kind))

/-- `JapycVisitor.visit_with_remove` (`japyc.py:45-58`): visit each child in
order, dropping removed (`None`) results.  In this embedding `visit` always
produces a node on success, so the `None` filter never fires and the
function sequences the visits. -/
def visit_with_remove : Nat → Consts → List PyAst → Except Err (List JapycNode × Consts)
  | 0, _, _ => .error .outOfFuel
  | _ + 1, c, [] => .ok ([], c)
  | fuel + 1, c, n :: rest => do
      let (x, c1) ← visit fuel c n
      let (xs, c2) ← visit_with_remove fuel c1 rest
      .ok (x :: xs, c2)

/-- `JapycModule.create_from_node` (`nodes.py:41-43`). -/
def JapycModule.create_from_node : Nat → Consts → List PyAst → Except Err (JapycNode × Consts)
  | 0, _, _ => .error .outOfFuel
  | fuel + 1, c, body => do
      let (jbody, c') ← visit_with_remove fuel c body
      .ok (.module jbody, c')

/-- `JapycFunctionDef.create_from_node` (`nodes.py:58-80`): visit the body
first, then validate argument annotations, then resolve the return
annotation (see `returnType` for the `node.returns.value` slip). -/
def JapycFunctionDef.create_from_node : Nat → Consts → String →
    List (String × Option PyAst) → List PyAst → Option PyAst →
    Except Err (JapycNode × Consts)
  | 0, _, _, _, _, _ => .error .outOfFuel
  | fuel + 1, c, name, args, body, returns => do
      let (jbody, c') ← visit_with_remove fuel c body
      let jargs ← checkArgs args
      let rt ← returnType returns
      .ok (.functionDef name jargs jbody rt, c')

/-- `JapycPoke.create_from_node` (`nodes.py:117-132`): recognized when the
call target's name starts with `_japyc_poke`; the remainder of the name
must be one of `8`, `16`, `32`, `64` (else a width error), there must be
exactly two arguments (else an arity error), and the two arguments are
visited to form the `Poke` node with `ir.IntType(int(bits))`. -/
def JapycPoke.create_from_node : Nat → Consts → PyAst → List PyAst →
    Except Err (Option (JapycNode × Consts))
  | 0, _, _, _ => .error .outOfFuel
  | fuel + 1, c, func, args => do
      let id ← getId func
      if pyStartsWith id "_japyc_poke" then
        let bits := pyDrop id 11
        if bits = "8" ∨ bits = "16" ∨ bits = "32" ∨ bits = "64" then
          match args with
          | [a0, a1] => do
              let (addr, c1) ← visit fuel c a0
              let (value, c2) ← visit fuel c1 a1
              .ok (some (.poke addr value (.int (pyToNat bits)), c2))
          | _ => .error (.japycError "_japyc_poke* requires exactly 2 arguments")
        else
          .error (.japycError ("Invalid number of bits in poke: " ++ bits))
      else
        .ok none

/-- `JapycFunctionCall.create_from_node` (`nodes.py:146-149`): visit the
arguments, then carry the callee name through verbatim. -/
def JapycFunctionCall.create_from_node : Nat → Consts → PyAst → List PyAst →
    Except Err (JapycNode × Consts)
  | 0, _, _, _ => .error .outOfFuel
  | fuel + 1, c, func, args => do
      let (jargs, c') ← visit_with_remove fuel c args
      let id ← getId func
      .ok (.functionCall id jargs, c')

/-- `JapycBinOp.create_from_node` (`nodes.py:221-236`): visit both operands;
if both are integer literals, fold with `_do_op` (`Mult` -> `*`, `Add` ->
`+`, anything else -> `NotImplementedError`); otherwise build a `BinaryOp`
node carrying the operator unchanged. -/
def JapycBinOp.create_from_node : Nat → Consts → PyOp → PyAst → PyAst →
    Except Err (JapycNode × Consts)
  | 0, _, _, _, _ => .error .outOfFuel
  | fuel + 1, c, op, l, r => do
      let (left, c1) ← visit fuel c l
      let (right, c2) ← visit fuel c1 r
      if isJapycInteger left && isJapycInteger right then
        match op with
        | .mult => .ok (.integer (intValue left * intValue right) none, c2)
        | .add => .ok (.integer (intValue left + intValue right) none, c2)
        | _ => .error (.notImplementedError "")
      else
        .ok (.binop op left right, c2)

end

/-- An llvmlite value: `ir.Constant(type, value)`, an `ir.Function` argument
(identified by function name and position), or the result of an emitted
instruction (identified by function index in the module and instruction
position in its entry block). -/
inductive Value where
  | const (type : LLVMType) (value : Int)
  | arg (fn : String) (index : Nat)
  | instr (fn : Nat) (index : Nat)

/-- The llvmlite instructions this compiler emits through `IRBuilder`:
`add`, `mul`, `inttoptr`, `store`, `call` (callee given by its function
handle, an index into the module), and `ret_void`. -/
inductive Instr where
  | add (a b : Value)
  | mul (a b : Value)
  | inttoptr (a : Value) (type : LLVMType)
  | store (value addr : Value)
  | call (fn : Nat) (args : List Value)
  | retVoid

/-- One `ir.Function` of the module: its signature and the instructions of
its single `entry` block. -/
structure LLVMFunction where
  name : String
  argTypes : List LLVMType
  retType : LLVMType
  instrs : List Instr

/-- The mutable state of `LLVMEmitter` (`japyc.py:106-111`): the module
being built (its function list), the function table `self.functions`
(name to function handle, a dict), the current builder
`self.builder` (`None` until the first function; otherwise the handle of
the function whose entry block receives instructions), and
`self.function_arguments` (parameter name to `ir.Function` argument). -/
structure EmitState where
  module : List LLVMFunction
  functions : List (String × Nat)
  builder : Option Nat
  function_arguments : List (String × Value)

/-- `visitor.functions[name]` lookup. -/
def fnsGet (l : List (String × Nat)) (k : String) : Option Nat :=
  match l with
  | [] => none
  | (k', v) :: rest => if k' = k then some v else fnsGet rest k

/-- `visitor.functions[name] = fn` (dict overwrite semantics). -/
def fnsSet (l : List (String × Nat)) (k : String) (v : Nat) :
    List (String × Nat) :=
  match l with
  | [] => [(k, v)]
  | (k', v') :: rest =>
      if k' = k then (k, v) :: rest else (k', v') :: fnsSet rest k v

/-- `visitor.function_arguments[name]` lookup. -/
def argsGet (l : List (String × Value)) (k : String) : Option Value :=
  match l with
  | [] => none
  | (k', v) :: rest => if k' = k then some v else argsGet rest k

/-- `visitor.builder.<op>(...)`: append an instruction to the entry block of
the function the current builder points at and return its result value.
When `self.builder` is still `None` (no function has been entered) the
attribute access on `None` raises `AttributeError`. -/
def builder_add (st : EmitState) (i : Instr) : Except Err (Value × EmitState) :=
  match st.builder with
  | none => .error .attributeError
  | some b =>
      match st.module.get? b with
      | none => .error .attributeError
      | some fn =>
          .ok (.instr b fn.instrs.length,
            { st with
                module := st.module.set b { fn with instrs := fn.instrs ++ [i] } })

/-- `JapycInteger.emit_code` (`nodes.py:197-210`).  An untyped literal
adopts the caller's expected type, defaulting to `ir.IntType(64)`; a typed
literal disagreeing with the expected type raises the type-mismatch
`JapycError`.  The remaining two paths hit slips in the source: with a
matching expected type the code reads `self.int_type`, an attribute that
does not exist (`AttributeError`); with a type but no expected type
`int_type` is never assigned before use (`UnboundLocalError`).  The `TODO:
BOUNDS CHECKING` comment in the source is accurate: no path compares the
value against the bit width. -/
def JapycInteger.emit_code (value : Int) (selfType : Option LLVMType)
    (kwType : Option LLVMType) : Except Err Value :=
  match selfType with
  | none =>
      match kwType with
      | none => .ok (.const (.int 64) value)
      | some t => .ok (.const t value)
  | some t =>
      match kwType with
      | some k =>
          if t ≠ k then .error (.japycError "type mismatch")
          else .error .attributeError
      | none => .error .unboundLocalError

/-- `JapycVariable.emit_code` (`nodes.py:104-108`): a name either resolves
to the current function's argument value or raises `NotImplementedError`. -/
def JapycVariable.emit_code (st : EmitState) (name : String) :
    Except Err Value :=
  match argsGet st.function_arguments name with
  | some v => .ok v
  | none => .error (.notImplementedError "")

mutual

/-- `JapycAST.emit_code` dispatch (`LLVMEmitter.generic_visit` plus the
recursive `emit_code` calls): run one IR node, returning its value (`none`
for statement-like nodes, matching Python's `None`) and the updated
emitter state.  `kwType` is the `type=` keyword argument threaded through
`**kwargs`.  `EnumDecl`/`ConstDecl` inherit the base `JapycAST.emit_code`,
which does nothing and returns `None`. -/
def emit_code : Nat → EmitState → JapycNode → Option LLVMType →
    Except Err (Option Value × EmitState)
  | 0, _, _, _ => .error .outOfFuel
  | fuel + 1, st, n, kwType =>
    match n with
    | .module body => JapycModule.emit_code fuel st body kwType
    | .functionDef name args body return_type =>
        JapycFunctionDef.emit_code fuel st name args body return_type kwType
    | .variable name _ => do
        let v ← JapycVariable.emit_code st name
        .ok (some v, st)
    | .integer value ty => do
        let v ← JapycInteger.emit_code value ty kwType
        .ok (some v, st)
    | .binop op l r => JapycBinOp.emit_code fuel st op l r kwType
    | .poke addr value ty => JapycPoke.emit_code fuel st addr value ty
    | .functionCall fn args => JapycFunctionCall.emit_code fuel st fn args
    | .enumDecl => .ok (none, st)
    | .constDecl => .ok (none, st)

/-- The `[node.emit_code(visitor, **kwargs) for node in self.body]`
comprehensions (`nodes.py:48,91`): emit each node in order, discarding the
values. -/
def emit_list : Nat → EmitState → List JapycNode → Option LLVMType →
    Except Err EmitState
  | 0, _, _, _ => .error .outOfFuel
  | _ + 1, st, [], _ => .ok st
  | fuel + 1, st, n :: rest, kwType => do
      let (_, st1) ← emit_code fuel st n kwType
      emit_list fuel st1 rest kwType

/-- The argument comprehension of `JapycFunctionCall.emit_code`
(`nodes.py:153`): emit each argument with its expected type from the
callee's signature.  An argument emitting `None` would make llvmlite's
`builder.call` fail on a non-value operand; that failure is modelled as
`AttributeError`. -/
def emit_args : Nat → EmitState → List (JapycNode × LLVMType) →
    Except Err (List Value × EmitState)
  | 0, _, _ => .error .outOfFuel
  | _ + 1, st, [] => .ok ([], st)
  | fuel + 1, st, (n, ty) :: rest => do
      let (v, st1) ← emit_code fuel st n (some ty)
      match v with
      | some v => do
          let (vs, st2) ← emit_args fuel st1 rest
          .ok (v :: vs, st2)
      | none => .error .attributeError

/-- `JapycModule.emit_code` (`nodes.py:46-49`): start a fresh `ir.Module`,
emit every top-level node in order, and return the module (held in the
state; the caller `lower` reads it back). -/
def JapycModule.emit_code : Nat → EmitState → List JapycNode →
    Option LLVMType → Except Err (Option Value × EmitState)
  | 0, _, _, _ => .error .outOfFuel
  | fuel + 1, st, body, kwType => do
      let st1 := { st with module := [] }
      let st2 ← emit_list fuel st1 body kwType
      .ok (none, st2)

/-- Lines `nodes.py:84-90` of `JapycFunctionDef.emit_code`: create the
`ir.Function` with the declared signature, append its entry block, register
the handle in `visitor.functions`, point `visitor.builder` at the entry
block and bind the parameter names to the function's argument values. -/
def function_entry (st : EmitState) (name : String)
    (args : List (String × LLVMType)) (return_type : LLVMType) : EmitState :=
  { module := st.module ++ [⟨name, args.map (·.2), return_type, []⟩],
    functions := fnsSet st.functions name st.module.length,
    builder := some st.module.length,
    function_arguments := args.enum.map fun p => (p.2.1, .arg name p.1) }

/-- `JapycFunctionDef.emit_code` (`nodes.py:82-92`): create the
`ir.Function` with the declared signature, register it in
`visitor.functions` *before* emitting the body, point the builder at its
entry block, bind the parameter names, emit the body statements in order,
and unconditionally append `ret_void` to the current builder — whatever the
declared return type is. -/
def JapycFunctionDef.emit_code : Nat → EmitState → String →
    List (String × LLVMType) → List JapycNode → LLVMType → Option LLVMType →
    Except Err (Option Value × EmitState)
  | 0, _, _, _, _, _, _ => .error .outOfFuel
  | fuel + 1, st, name, args, body, return_type, kwType => do
      let st2 ← emit_list fuel (function_entry st name args return_type) body kwType
      let (_, st3) ← builder_add st2 .retVoid
      .ok (none, st3)

/-- `JapycPoke.emit_code` (`nodes.py:134-137`): emit the address with
expected type `ir.IntType(64)`, cast it with `inttoptr` to a pointer to
the poke's width, emit the value with the poke's width as expected type,
and store.  An operand emitting `None` would make llvmlite fail on a
non-value; modelled as `AttributeError`. -/
def JapycPoke.emit_code : Nat → EmitState → JapycNode → JapycNode →
    LLVMType → Except Err (Option Value × EmitState)
  | 0, _, _, _, _ => .error .outOfFuel
  | fuel + 1, st, addrNode, valueNode, ty => do
      let (av, st1) ← emit_code fuel st addrNode (some (.int 64))
      match av with
      | none => .error .attributeError
      | some addr => do
          let (ptr, st2) ← builder_add st1 (.inttoptr addr (.ptr ty))
          let (vv, st3) ← emit_code fuel st2 valueNode (some ty)
          match vv with
          | none => .error .attributeError
          | some value => do
              let (_, st4) ← builder_add st3 (.store value ptr)
              .ok (none, st4)

/-- `JapycFunctionCall.emit_code` (`nodes.py:151-154`): look up the callee
in `visitor.functions` (a missing name raises `KeyError`), emit each
argument with the expected type from the callee's signature (`zip`
truncates, as in Python), and emit the call against the callee's handle. -/
def JapycFunctionCall.emit_code : Nat → EmitState → String →
    List JapycNode → Except Err (Option Value × EmitState)
  | 0, _, _, _ => .error .outOfFuel
  | fuel + 1, st, fnName, args =>
      match fnsGet st.functions fnName with
      | none => .error (.keyError fnName)
      | some idx => do
          let argTypes :=
            match st.module.get? idx with
            | some f => f.argTypes
            | none => []
          let (vals, st1) ← emit_args fuel st (args.zip argTypes)
          let (_, st2) ← builder_add st1 (.call idx vals)
          .ok (none, st2)

/-- `JapycBinOp.emit_code` (`nodes.py:238-244`): emit both operands with the
caller's expected type propagated unchanged, then `builder.add` for `Add`,
`builder.mul` for `Mult` — and for any other operator fall off the
`if`/`elif` chain, emitting nothing and returning `None`. -/
def JapycBinOp.emit_code : Nat → EmitState → PyOp → JapycNode → JapycNode →
    Option LLVMType → Except Err (Option Value × EmitState)
  | 0, _, _, _, _, _ => .error .outOfFuel
  | fuel + 1, st, op, l, r, kwType => do
      let (a, st1) ← emit_code fuel st l kwType
      let (b, st2) ← emit_code fuel st1 r kwType
      match op with
      | .add =>
          match a, b with
          | some av, some bv => do
              let (v, st3) ← builder_add st2 (.add av bv)
              .ok (some v, st3)
          | _, _ => .error .attributeError
      | .mult =>
          match a, b with
          | some av, some bv => do
              let (v, st3) ← builder_add st2 (.mul av bv)
              .ok (some v, st3)
          | _, _ => .error .attributeError
      | _ => .ok (none, st2)

end

/-- `LLVMEmitter(filename).visit(japyc_root)` (`japyc.py:199`): run the
emitter on the translated root with a fresh state (`builder = None`, empty
function table) and return the finished module's function list. -/
def lower (fuel : Nat) (root : JapycNode) : Except Err (List LLVMFunction) := do
  let (_, st) ← emit_code fuel ⟨[], [], none, []⟩ root none
  .ok st.module

/-- The folding invariant on produced IR: no `BinaryOp` node anywhere in
the tree has two integer-literal operands. -/
inductive NoLitBinop : JapycNode → Prop where
  | module : ∀ {body}, (∀ x ∈ body, NoLitBinop x) → NoLitBinop (.module body)
  | functionDef : ∀ {name args body rt}, (∀ x ∈ body, NoLitBinop x) →
      NoLitBinop (.functionDef name args body rt)
  | variable : ∀ {n t}, NoLitBinop (.variable n t)
  | integer : ∀ {v t}, NoLitBinop (.integer v t)
  | binop : ∀ {op l r}, (isJapycInteger l && isJapycInteger r) = false →
      NoLitBinop l → NoLitBinop r → NoLitBinop (.binop op l r)
  | poke : ∀ {a v t}, NoLitBinop a → NoLitBinop v → NoLitBinop (.poke a v t)
  | functionCall : ∀ {f args}, (∀ x ∈ args, NoLitBinop x) →
      NoLitBinop (.functionCall f args)
  | enumDecl : NoLitBinop .enumDecl
  | constDecl : NoLitBinop .constDecl

/-- `do`-notation unfolding for a successful step. -/
theorem ok_bind {α β : Type} (a : α) (f : α → Except Err β) :
    (Except.ok a : Except Err α) >>= f = f a := rfl

/-- `do`-notation unfolding for a failing step. -/
theorem error_bind {α β : Type} (e : Err) (f : α → Except Err β) :
    (Except.error e : Except Err α) >>= f = .error e := rfl

/-- Destructuring a successful `do`-sequence. -/
theorem bind_ok_iff {α β : Type} {e : Except Err α} {f : α → Except Err β}
    {b : β} (h : e >>= f = .ok b) : ∃ a, e = .ok a ∧ f a = .ok b := by
  cases e with
  | error x => simp [Bind.bind, Except.bind] at h
  | ok a => exact ⟨a, rfl, by simpa [Bind.bind, Except.bind] using h⟩

/-- Whatever `JapycInteger.create_from_node` produces is an integer literal. -/
theorem JapycInteger_create_folded {c n r}
    (h : JapycInteger.create_from_node c n = .ok (some r)) : NoLitBinop r := by
  cases n with
  | pyconstant v =>
      cases v with
      | int n =>
          simp only [JapycInteger.create_from_node] at h
          cases h; exact .integer
      | str s =>
          simp only [JapycInteger.create_from_node] at h
          split at h
          · split at h
            · cases h; exact .integer
            · cases h
          · cases h
      | pynone => simp [JapycInteger.create_from_node] at h
      | otherVal => simp [JapycInteger.create_from_node] at h
  | pyname id =>
      simp only [JapycInteger.create_from_node] at h
      split at h
      · cases h; exact .integer
      · cases h
      · cases h
  | pyattribute v attr =>
      cases v <;> simp only [JapycInteger.create_from_node] at h <;>
        try cases h
      split at h
      · cases h
      · cases h
      · split at h
        · cases h; exact .integer
        · cases h
  | pycall f a k => simp [JapycInteger.create_from_node] at h
  | module b => simp [JapycInteger.create_from_node] at h
  | functionDef a b c d e => simp [JapycInteger.create_from_node] at h
  | classDef a b c => simp [JapycInteger.create_from_node] at h
  | assign a b => simp [JapycInteger.create_from_node] at h
  | pybinop a b c => simp [JapycInteger.create_from_node] at h
  | pyexpr a => simp [JapycInteger.create_from_node] at h
  | other k => simp [JapycInteger.create_from_node] at h

/-- Whatever `JapycEnum.create_from_node` produces is the `EnumDecl` marker. -/
theorem JapycEnum_create_folded {c nm body decs r c'}
    (h : JapycEnum.create_from_node c nm body decs = .ok (some (r, c'))) :
    NoLitBinop r := by
  simp only [JapycEnum.create_from_node] at h
  split at h
  · rename_i dec
    cases hid : getId dec with
    | error e => rw [hid] at h; cases h
    | ok did =>
        rw [hid] at h
        simp only [ok_bind] at h
        split at h
        · cases hf : enumFields body [] with
          | error e => rw [hf] at h; cases h
          | ok fs => rw [hf] at h; simp only [ok_bind] at h; cases h; exact .enumDecl
        · cases h
  · cases h

/-- Whatever `JapycConst.create_from_node` produces is the `ConstDecl`
marker. -/
theorem JapycConst_create_folded {c func kws r c'}
    (h : JapycConst.create_from_node c func kws = .ok (some (r, c'))) :
    NoLitBinop r := by
  simp only [JapycConst.create_from_node] at h
  cases hid : getId func with
  | error e => rw [hid] at h; cases h
  | ok id =>
      rw [hid] at h
      simp only [ok_bind] at h
      split at h
      · split at h
        · split at h
          · split at h
            · cases h
            · cases h; exact .constDecl
          · cases h
        · cases h
      · cases h

/-- Every node any translator entry point successfully produces satisfies
the folding invariant.  Proved by induction on fuel: every recursive call
consumes fuel, so each component at `fuel + 1` only needs the components at
`fuel`. -/
theorem translate_folded : ∀ fuel : Nat,
    (∀ c n r c', visit fuel c n = .ok (r, c') → NoLitBinop r) ∧
    (∀ c n r c', generic_visit fuel c n = .ok (r, c') → NoLitBinop r) ∧
    (∀ c l rs c', visit_with_remove fuel c l = .ok (rs, c') →
      ∀ x ∈ rs, NoLitBinop x) ∧
    (∀ c body r c', JapycModule.create_from_node fuel c body = .ok (r, c') →
      NoLitBinop r) ∧
    (∀ c nm args body rets r c',
      JapycFunctionDef.create_from_node fuel c nm args body rets = .ok (r, c') →
      NoLitBinop r) ∧
    (∀ c func args r c',
      JapycPoke.create_from_node fuel c func args = .ok (some (r, c')) →
      NoLitBinop r) ∧
    (∀ c func args r c',
      JapycFunctionCall.create_from_node fuel c func args = .ok (r, c') →
      NoLitBinop r) ∧
    (∀ c op l rr r c',
      JapycBinOp.create_from_node fuel c op l rr = .ok (r, c') →
      NoLitBinop r) := by
  intro fuel
  induction fuel with
  | zero =>
      refine ⟨?_, ?_, ?_, ?_, ?_, ?_, ?_, ?_⟩
      · intro c n r c' h; simp [visit] at h
      · intro c n r c' h; simp [generic_visit] at h
      · intro c l rs c' h; simp [visit_with_remove] at h
      · intro c body r c' h; simp [JapycModule.create_from_node] at h
      · intro c nm args body rets r c' h
        simp [JapycFunctionDef.create_from_node] at h
      · intro c func args r c' h; simp [JapycPoke.create_from_node] at h
      · intro c func args r c' h; simp [JapycFunctionCall.create_from_node] at h
      · intro c op l rr r c' h; simp [JapycBinOp.create_from_node] at h
  | succ fuel ih =>
      obtain ⟨ihv, ihg, ihl, ihm, ihf, ihp, ihc, ihb⟩ := ih
      refine ⟨?_, ?_, ?_, ?_, ?_, ?_, ?_, ?_⟩
      · -- visit
        intro c n r c' h
        cases n <;> simp only [visit] at h <;>
          first
          | exact ihv _ _ _ _ h
          | exact ihg _ _ _ _ h
      · -- generic_visit
        intro c n r c' h
        cases n with
        | module body =>
            simp only [generic_visit] at h
            exact ihm _ _ _ _ h
        | functionDef nm args body rets decs =>
            simp only [generic_visit] at h
            exact ihf _ _ _ _ _ _ _ h
        | pyname id =>
            simp only [generic_visit] at h
            cases hI : JapycInteger.create_from_node c (.pyname id) with
            | error e => simp [hI] at h
            | ok o =>
                cases o with
                | none =>
                    simp only [hI, JapycVariable.create_from_node,
                      Except.ok.injEq, Prod.mk.injEq] at h
                    obtain ⟨rfl, rfl⟩ := h
                    exact .variable
                | some jr =>
                    simp only [hI, Except.ok.injEq, Prod.mk.injEq] at h
                    obtain ⟨rfl, rfl⟩ := h
                    exact JapycInteger_create_folded hI
        | pyconstant v =>
            simp only [generic_visit] at h
            cases hI : JapycInteger.create_from_node c (.pyconstant v) with
            | error e => simp [hI] at h
            | ok o =>
                cases o with
                | none => simp [hI] at h
                | some jr =>
                    simp only [hI, Except.ok.injEq, Prod.mk.injEq] at h
                    obtain ⟨rfl, rfl⟩ := h
                    exact JapycInteger_create_folded hI
        | pyattribute v attr =>
            simp only [generic_visit] at h
            cases hI : JapycInteger.create_from_node c (.pyattribute v attr) with
            | error e => simp [hI] at h
            | ok o =>
                cases o with
                | none => simp [hI] at h
                | some jr =>
                    simp only [hI, Except.ok.injEq, Prod.mk.injEq] at h
                    obtain ⟨rfl, rfl⟩ := h
                    exact JapycInteger_create_folded hI
        | pycall func args kws =>
            simp only [generic_visit] at h
            cases hC : JapycConst.create_from_node c func kws with
            | error e => simp [hC] at h
            | ok oC =>
                cases oC with
                | some p =>
                    obtain ⟨jr, c₁⟩ := p
                    simp only [hC, Except.ok.injEq, Prod.mk.injEq] at h
                    obtain ⟨rfl, rfl⟩ := h
                    exact JapycConst_create_folded hC
                | none =>
                    simp only [hC] at h
                    cases hI : JapycInteger.create_from_node c
                        (.pycall func args kws) with
                    | error e => simp [hI] at h
                    | ok oI =>
                        cases oI with
                        | some jr =>
                            simp only [hI, Except.ok.injEq, Prod.mk.injEq] at h
                            obtain ⟨rfl, rfl⟩ := h
                            exact JapycInteger_create_folded hI
                        | none =>
                            simp only [hI] at h
                            cases hP : JapycPoke.create_from_node fuel c func args with
                            | error e => simp [hP] at h
                            | ok oP =>
                                cases oP with
                                | some p =>
                                    obtain ⟨jr, c₁⟩ := p
                                    simp only [hP, Except.ok.injEq,
                                      Prod.mk.injEq] at h
                                    obtain ⟨rfl, rfl⟩ := h
                                    exact ihp _ _ _ _ _ hP
                                | none =>
                                    simp only [hP] at h
                                    exact ihc _ _ _ _ _ h
        | pybinop op l rr =>
            simp only [generic_visit] at h
            exact ihb _ _ _ _ _ _ h
        | classDef nm body decs =>
            simp only [generic_visit] at h
            cases hE : JapycEnum.create_from_node c nm body decs with
            | error e => simp [hE] at h
            | ok o =>
                cases o with
                | none => simp [hE] at h
                | some p =>
                    obtain ⟨jr, c₁⟩ := p
                    simp only [hE, Except.ok.injEq, Prod.mk.injEq] at h
                    obtain ⟨rfl, rfl⟩ := h
                    exact JapycEnum_create_folded hE
        | assign targets v => simp [generic_visit] at h
        | pyexpr v => simp [generic_visit] at h
        | other k => simp [generic_visit] at h
      · -- visit_with_remove
        intro c l rs c' h
        cases l with
        | nil =>
            simp only [visit_with_remove, Except.ok.injEq, Prod.mk.injEq] at h
            obtain ⟨rfl, rfl⟩ := h
            intro x hx
            simp at hx
        | cons n rest =>
            simp only [visit_with_remove] at h
            obtain ⟨p, hp, h⟩ := bind_ok_iff h
            obtain ⟨x, c1⟩ := p
            dsimp only at h
            obtain ⟨q, hq, h⟩ := bind_ok_iff h
            obtain ⟨xs, c2⟩ := q
            dsimp only at h
            simp only [Except.ok.injEq, Prod.mk.injEq] at h
            obtain ⟨rfl, rfl⟩ := h
            intro y hy
            rcases List.mem_cons.mp hy with rfl | hy
            · exact ihv _ _ _ _ hp
            · exact ihl _ _ _ _ hq y hy
      · -- JapycModule builder
        intro c body r c' h
        simp only [JapycModule.create_from_node] at h
        obtain ⟨p, hp, h⟩ := bind_ok_iff h
        obtain ⟨jbody, c₁⟩ := p
        dsimp only at h
        simp only [Except.ok.injEq, Prod.mk.injEq] at h
        obtain ⟨rfl, rfl⟩ := h
        exact .module (ihl _ _ _ _ hp)
      · -- JapycFunctionDef builder
        intro c nm args body rets r c' h
        simp only [JapycFunctionDef.create_from_node] at h
        obtain ⟨p, hp, h⟩ := bind_ok_iff h
        obtain ⟨jbody, c₁⟩ := p
        dsimp only at h
        obtain ⟨jargs, hargs, h⟩ := bind_ok_iff h
        obtain ⟨rt, hrt, h⟩ := bind_ok_iff h
        simp only [Except.ok.injEq, Prod.mk.injEq] at h
        obtain ⟨rfl, rfl⟩ := h
        exact .functionDef (ihl _ _ _ _ hp)
      · -- JapycPoke builder
        intro c func args r c' h
        simp only [JapycPoke.create_from_node] at h
        obtain ⟨id, hid, h⟩ := bind_ok_iff h
        split at h
        · split at h
          · split at h
            · obtain ⟨p, hp, h⟩ := bind_ok_iff h
              obtain ⟨addr, c1⟩ := p
              dsimp only at h
              obtain ⟨q, hq, h⟩ := bind_ok_iff h
              obtain ⟨value, c2⟩ := q
              dsimp only at h
              simp only [Except.ok.injEq, Option.some.injEq,
                Prod.mk.injEq] at h
              obtain ⟨rfl, rfl⟩ := h
              exact .poke (ihv _ _ _ _ hp) (ihv _ _ _ _ hq)
            · simp at h
          · simp at h
        · simp at h
      · -- JapycFunctionCall builder
        intro c func args r c' h
        simp only [JapycFunctionCall.create_from_node] at h
        obtain ⟨p, hp, h⟩ := bind_ok_iff h
        obtain ⟨jargs, c₁⟩ := p
        dsimp only at h
        obtain ⟨id, hid, h⟩ := bind_ok_iff h
        simp only [Except.ok.injEq, Prod.mk.injEq] at h
        obtain ⟨rfl, rfl⟩ := h
        exact .functionCall (ihl _ _ _ _ hp)
      · -- JapycBinOp builder
        intro c op l rr r c' h
        simp only [JapycBinOp.create_from_node] at h
        obtain ⟨p, hp, h⟩ := bind_ok_iff h
        obtain ⟨left, c1⟩ := p
        dsimp only at h
        obtain ⟨q, hq, h⟩ := bind_ok_iff h
        obtain ⟨right, c2⟩ := q
        dsimp only at h
        split at h
        · split at h
          · simp only [Except.ok.injEq, Prod.mk.injEq] at h
            obtain ⟨rfl, rfl⟩ := h
            exact .integer
          · simp only [Except.ok.injEq, Prod.mk.injEq] at h
            obtain ⟨rfl, rfl⟩ := h
            exact .integer
          · simp at h
        · rename_i hguard
          simp only [Except.ok.injEq, Prod.mk.injEq] at h
          obtain ⟨rfl, rfl⟩ := h
          exact .binop (by simpa using hguard) (ihv _ _ _ _ hp)
            (ihv _ _ _ _ hq)

/-- C1: for every binary-operation syntax node with operator add or
multiply whose two operands both translate to integer literals with values
`a` and `b`, translation produces a single `IntegerLiteral` carrying
exactly `a + b` resp. `a * b`; and no `BinaryOp` IR node over two integer
literals ever appears anywhere in any IR tree the translator produces. -/
theorem claim_C1 :
    (∀ fuel c l r a ta b tb c₁ c₂,
      visit fuel c l = .ok (.integer a ta, c₁) →
      visit fuel c₁ r = .ok (.integer b tb, c₂) →
      visit (fuel + 3) c (.pybinop .add l r) = .ok (.integer (a + b) none, c₂)) ∧
    (∀ fuel c l r a ta b tb c₁ c₂,
      visit fuel c l = .ok (.integer a ta, c₁) →
      visit fuel c₁ r = .ok (.integer b tb, c₂) →
      visit (fuel + 3) c (.pybinop .mult l r) = .ok (.integer (a * b) none, c₂)) ∧
    (∀ fuel c n r c', visit fuel c n = .ok (r, c') → NoLitBinop r) := by
  refine ⟨?_, ?_, fun fuel c n r c' h => (translate_folded fuel).1 c n r c' h⟩
  · intro fuel c l r a ta b tb c₁ c₂ hl hr
    simp [visit, generic_visit, JapycBinOp.create_from_node, hl, hr, ok_bind,
      isJapycInteger, intValue]
  · intro fuel c l r a ta b tb c₁ c₂ hl hr
    simp [visit, generic_visit, JapycBinOp.create_from_node, hl, hr, ok_bind,
      isJapycInteger, intValue]

/-- Witness for C1: `20 + 22` folds to the literal `42`, and the resulting
node satisfies the folding invariant. -/
theorem claim_C1_witness :
    visit 8 [] (.pybinop .add (.pyconstant (.int 20)) (.pyconstant (.int 22)))
      = .ok (.integer 42 none, []) ∧
    NoLitBinop (.integer 42 none) :=
  ⟨claim_C1.1 5 [] _ _ 20 none 22 none [] [] rfl rfl,
   claim_C1.2.2 5 [] (.pyconstant (.int 42)) _ [] rfl⟩

/-- Counterexample to C2 as stated: for the subtraction operator (neither
add nor multiply) with two non-literal operands, translation does NOT fail
with `NotImplementedOperation` — it succeeds and produces a `BinaryOp`
carrying the unsupported operator. -/
theorem claim_C2_counterexample :
    visit 5 [] (.pybinop .sub (.pyname "x") (.pyname "y")) =
      .ok (.binop .sub (.variable "x" none) (.variable "y" none), []) := rfl

/-- C2 (amended): for a binary-operation syntax node whose operator is
neither add nor multiply, translation fails with `NotImplementedError`
exactly when both operands translate to integer literals; when at least
one operand is not an integer literal, translation succeeds and produces a
`BinaryOp` node carrying the unsupported operator. -/
theorem claim_C2 : ∀ fuel c op l r, op ≠ .add → op ≠ .mult →
    (∀ a ta b tb c₁ c₂,
      visit fuel c l = .ok (.integer a ta, c₁) →
      visit fuel c₁ r = .ok (.integer b tb, c₂) →
      visit (fuel + 3) c (.pybinop op l r) = .error (.notImplementedError "")) ∧
    (∀ x y c₁ c₂,
      visit fuel c l = .ok (x, c₁) →
      visit fuel c₁ r = .ok (y, c₂) →
      (isJapycInteger x && isJapycInteger y) = false →
      visit (fuel + 3) c (.pybinop op l r) = .ok (.binop op x y, c₂)) := by
  intro fuel c op l r hna hnm
  constructor
  · intro a ta b tb c₁ c₂ hl hr
    cases op with
    | add => exact absurd rfl hna
    | mult => exact absurd rfl hnm
    | sub =>
        simp [visit, generic_visit, JapycBinOp.create_from_node, hl, hr,
          ok_bind, isJapycInteger]
    | div =>
        simp [visit, generic_visit, JapycBinOp.create_from_node, hl, hr,
          ok_bind, isJapycInteger]
  · intro x y c₁ c₂ hl hr hguard
    simp [visit, generic_visit, JapycBinOp.create_from_node, hl, hr,
      ok_bind, hguard]
    intro hx
    simpa [hx] using hguard

/-- Witness for C2 (amended): `2 - 3` raises `NotImplementedError`, while
`x / 3` (one non-literal operand) produces a `BinaryOp` with the
unsupported `div` operator. -/
theorem claim_C2_witness :
    visit 8 [] (.pybinop .sub (.pyconstant (.int 2)) (.pyconstant (.int 3)))
      = .error (.notImplementedError "") ∧
    visit 8 [] (.pybinop .div (.pyname "x") (.pyconstant (.int 3)))
      = .ok (.binop .div (.variable "x" none) (.integer 3 none), []) :=
  ⟨(claim_C2 5 [] .sub _ _ (by decide) (by decide)).1 2 none 3 none [] []
      rfl rfl,
   (claim_C2 5 [] .div _ _ (by decide) (by decide)).2 _ _ [] [] rfl rfl rfl⟩

/-- Dispatch helper: for a call whose target name does not carry the
constant prefix, the `JapycConst` and `JapycInteger` candidates decline,
leaving the `JapycPoke` candidate and the `JapycFunctionCall` default. -/
theorem visit_call_nonconst (fuel : Nat) (c : Consts) (id : String)
    (args : List PyAst) (kws : List (String × PyAst))
    (hconst : pyStartsWith id "_japyc_const" = false) :
    visit (fuel + 2) c (.pycall (.pyname id) args kws) =
      match JapycPoke.create_from_node fuel c (.pyname id) args with
      | .error e => .error e
      | .ok (some (r, c')) => .ok (r, c')
      | .ok none => JapycFunctionCall.create_from_node fuel c (.pyname id) args := by
  simp [visit, generic_visit, JapycConst.create_from_node, getId, ok_bind,
    hconst, JapycInteger.create_from_node]

/-- A name carrying the poke prefix can never carry the constant prefix
(they differ at their eighth character), so the `JapycConst` candidate
always declines a poke call. -/
theorem poke_not_const {id : String} (h : pyStartsWith id "_japyc_poke" = true) :
    pyStartsWith id "_japyc_const" = false := by
  obtain ⟨data⟩ := id
  rcases data with _ | ⟨c0, _ | ⟨c1, _ | ⟨c2, _ | ⟨c3, _ | ⟨c4, _ | ⟨c5, _ |
    ⟨c6, _ | ⟨c7, rest⟩⟩⟩⟩⟩⟩⟩⟩ <;> simp_all [pyStartsWith, chrsPre]
  intro _ _ _ _ _ _ _ hc
  obtain ⟨_, _, _, _, _, _, _, hp, _⟩ := h
  exact absurd (hp.trans hc.symm) (by decide)

/-- C3: for a call whose target name is the poke prefix followed by a
suffix: a suffix in {8,16,32,64} with exactly two arguments yields exactly
one `Poke` node whose type is the integer type of that bit width; any
other suffix fails with the invalid-width `JapycError`; a valid suffix
with an argument count other than two fails with the arity `JapycError`. -/
theorem claim_C3 :
    (∀ fuel c id a₁ a₂ kws v₁ v₂ c₁ c₂,
      pyStartsWith id "_japyc_poke" = true →
      (pyDrop id 11 = "8" ∨ pyDrop id 11 = "16" ∨ pyDrop id 11 = "32" ∨
        pyDrop id 11 = "64") →
      visit fuel c a₁ = .ok (v₁, c₁) →
      visit fuel c₁ a₂ = .ok (v₂, c₂) →
      visit (fuel + 3) c (.pycall (.pyname id) [a₁, a₂] kws) =
        .ok (.poke v₁ v₂ (.int (pyToNat (pyDrop id 11))), c₂)) ∧
    (∀ fuel c id args kws,
      pyStartsWith id "_japyc_poke" = true →
      ¬(pyDrop id 11 = "8" ∨ pyDrop id 11 = "16" ∨ pyDrop id 11 = "32" ∨
        pyDrop id 11 = "64") →
      visit (fuel + 3) c (.pycall (.pyname id) args kws) =
        .error (.japycError ("Invalid number of bits in poke: " ++ pyDrop id 11))) ∧
    (∀ fuel c id args kws,
      pyStartsWith id "_japyc_poke" = true →
      (pyDrop id 11 = "8" ∨ pyDrop id 11 = "16" ∨ pyDrop id 11 = "32" ∨
        pyDrop id 11 = "64") →
      args.length ≠ 2 →
      visit (fuel + 3) c (.pycall (.pyname id) args kws) =
        .error (.japycError "_japyc_poke* requires exactly 2 arguments")) := by
  refine ⟨?_, ?_, ?_⟩
  · intro fuel c id a₁ a₂ kws v₁ v₂ c₁ c₂ hpoke hbits hl hr
    rw [show fuel + 3 = (fuel + 1) + 2 from rfl,
      visit_call_nonconst (fuel + 1) c id [a₁, a₂] kws (poke_not_const hpoke)]
    simp only [JapycPoke.create_from_node, getId, ok_bind, hpoke, if_true]
    rw [if_pos hbits]
    simp [hl, hr, ok_bind]
  · intro fuel c id args kws hpoke hbits
    rw [show fuel + 3 = (fuel + 1) + 2 from rfl,
      visit_call_nonconst (fuel + 1) c id args kws (poke_not_const hpoke)]
    simp only [JapycPoke.create_from_node, getId, ok_bind, hpoke, if_true]
    rw [if_neg hbits]
  · intro fuel c id args kws hpoke hbits hlen
    rw [show fuel + 3 = (fuel + 1) + 2 from rfl,
      visit_call_nonconst (fuel + 1) c id args kws (poke_not_const hpoke)]
    simp only [JapycPoke.create_from_node, getId, ok_bind, hpoke, if_true]
    rw [if_pos hbits]
    match args, hlen with
    | [], _ => rfl
    | [a], _ => rfl
    | [a, b], h => exact absurd rfl h
    | a :: b :: x :: tl, _ => rfl

/-- Witness for C3: `_japyc_poke32(4096, 7)` yields one `Poke` of width 32;
`_japyc_poke7(4096, 7)` fails with the invalid-width error;
`_japyc_poke32(4096)` fails with the arity error. -/
theorem claim_C3_witness :
    visit 8 [] (.pycall (.pyname "_japyc_poke32")
        [.pyconstant (.int 4096), .pyconstant (.int 7)] [])
      = .ok (.poke (.integer 4096 none) (.integer 7 none) (.int 32), []) ∧
    visit 8 [] (.pycall (.pyname "_japyc_poke7")
        [.pyconstant (.int 4096), .pyconstant (.int 7)] [])
      = .error (.japycError ("Invalid number of bits in poke: " ++ "7")) ∧
    visit 8 [] (.pycall (.pyname "_japyc_poke32") [.pyconstant (.int 4096)] [])
      = .error (.japycError "_japyc_poke* requires exactly 2 arguments") :=
  ⟨claim_C3.1 5 [] "_japyc_poke32" _ _ [] _ _ [] [] (by decide)
      (by decide) rfl rfl,
   claim_C3.2.1 5 [] "_japyc_poke7" _ [] (by decide) (by decide),
   claim_C3.2.2 5 [] "_japyc_poke32" _ [] (by decide) (by decide)
      (by decide)⟩

/-- Counterexample to C4 as stated: declaring the enum `E` twice in one
module does not raise any error on the second declaration — translation
succeeds and the second declaration silently overwrites the constant-table
entry (`JapycEnum.create_from_node` has no duplicate check). -/
theorem claim_C4_counterexample :
    visit 9 [] (.module
      [.classDef "E" [.assign [.pyname "X"] (.pyconstant (.int 0))]
          [.pyname "_japyc_Enum"],
       .classDef "E" [.assign [.pyname "Y"] (.pyconstant (.int 1))]
          [.pyname "_japyc_Enum"]])
      = .ok (.module [.enumDecl, .enumDecl], [("E", .enum [("Y", 1)])]) := rfl

/-- C4 (amended): redeclaring a named *constant* under a name already
present in the constant table raises a `JapycError` on the second
declaration, and a first declaration under a fresh name stores the value;
redeclaring an *enum* under an already-present name raises nothing and
silently overwrites the entry; after a successful constant declaration a
bare-name reference to it translates to an `IntegerLiteral` carrying the
stored value. -/
theorem claim_C4 :
    (∀ fuel c id args k v w,
      pyStartsWith id "_japyc_const" = true →
      constsGet c k = some w →
      visit (fuel + 2) c (.pycall (.pyname id) args [(k, .pyconstant (.int v))])
        = .error (.japycError
            "Error in _japyc_constant: constant previously defined")) ∧
    (∀ fuel c id args k v,
      pyStartsWith id "_japyc_const" = true →
      constsGet c k = none →
      visit (fuel + 2) c (.pycall (.pyname id) args [(k, .pyconstant (.int v))])
        = .ok (.constDecl, constsSet c k (.int v))) ∧
    (∀ fuel c nm w,
      constsGet c nm = some w →
      visit (fuel + 2) c (.classDef nm [] [.pyname "_japyc_Enum"]) =
        .ok (.enumDecl, constsSet c nm (.enum []))) ∧
    (∀ fuel c k v,
      constsGet c k = some (.int v) →
      visit (fuel + 2) c (.pyname k) = .ok (.integer v none, c)) := by
  refine ⟨?_, ?_, ?_, ?_⟩
  · intro fuel c id args k v w hpre hdup
    simp [visit, generic_visit, JapycConst.create_from_node, getId, ok_bind,
      hpre, hdup]
  · intro fuel c id args k v hpre hnew
    simp [visit, generic_visit, JapycConst.create_from_node, getId, ok_bind,
      hpre, hnew]
  · intro fuel c nm w _
    simp [visit, generic_visit, JapycEnum.create_from_node, getId, ok_bind,
      enumFields]
  · intro fuel c k v hres
    simp [visit, generic_visit, JapycInteger.create_from_node, hres]

/-- Witness for C4 (amended): redeclaring the constant `FOO` errors;
declaring it afresh stores `7`; redeclaring the enum `E` silently
overwrites; referencing the stored constant resolves to the literal `7`. -/
theorem claim_C4_witness :
    visit 6 [("FOO", ConstVal.int 7)]
      (.pycall (.pyname "_japyc_constant") [] [("FOO", .pyconstant (.int 8))])
      = .error (.japycError
          "Error in _japyc_constant: constant previously defined") ∧
    visit 6 [] (.pycall (.pyname "_japyc_constant") []
        [("FOO", .pyconstant (.int 7))])
      = .ok (.constDecl, [("FOO", .int 7)]) ∧
    visit 6 [("E", ConstVal.enum [("X", 0)])]
      (.classDef "E" [] [.pyname "_japyc_Enum"])
      = .ok (.enumDecl, [("E", .enum [])]) ∧
    visit 6 [("FOO", ConstVal.int 7)] (.pyname "FOO")
      = .ok (.integer 7 none, [("FOO", ConstVal.int 7)]) :=
  ⟨claim_C4.1 4 _ "_japyc_constant" [] "FOO" 8 (.int 7) (by decide) rfl,
   claim_C4.2.1 4 [] "_japyc_constant" [] "FOO" 7 (by decide) rfl,
   claim_C4.2.2.1 4 _ "E" (.enum [("X", 0)]) rfl,
   claim_C4.2.2.2 4 _ "FOO" 7 rfl⟩

/-- C5 at the failing input (code bug): a function whose return annotation
names a recognized integer type does NOT produce a `FunctionDef` carrying
that integer return type — `nodes.py:74` reads `node.returns.value` on an
`ast.Name`, which has no `value` attribute, so every integer-annotated
return raises `AttributeError` (the guard two lines above correctly reads
`node.returns.id`).  The other two behaviors the claim states do hold: a
missing annotation raises the missing-return `JapycError`, and the explicit
`None` marker produces the void return type. -/
theorem claim_C5 :
    visit 4 [] (.functionDef "f" [] [] (some (.pyname "int64")) [])
      = .error .attributeError ∧
    visit 4 [] (.functionDef "f" [] [] none [])
      = .error (.japycError "missing return type definition") ∧
    visit 4 [] (.functionDef "f" [] [] (some (.pyconstant .pynone)) [])
      = .ok (.functionDef "f" [] [] .void, []) := by
  refine ⟨?_, ?_, ?_⟩ <;> rfl

/-- C6: a visited syntax node whose kind has no candidate builder that
produces an IR node and no default builder fails with the
unsupported-syntax `NotImplementedError` naming the kind.  The kinds this
covers are: any unregistered kind (`other`), `Assign` (registered for
nothing), and `Constant`/`Attribute`/`ClassDef` when their single
candidate (`JapycInteger` resp. `JapycEnum`) declines the instance. -/
theorem claim_C6 :
    (∀ fuel c k, visit (fuel + 2) c (.other k) =
      .error (.notImplementedError ("Unimplemented node: " ++ k))) ∧
    (∀ fuel c targets v, visit (fuel + 2) c (.assign targets v) =
      .error (.notImplementedError "Unimplemented node: Assign")) ∧
    (∀ fuel c v, JapycInteger.create_from_node c (.pyconstant v) = .ok none →
      visit (fuel + 2) c (.pyconstant v) =
        .error (.notImplementedError "Unimplemented node: Constant")) ∧
    (∀ fuel c base attr,
      JapycInteger.create_from_node c (.pyattribute base attr) = .ok none →
      visit (fuel + 2) c (.pyattribute base attr) =
        .error (.notImplementedError "Unimplemented node: Attribute")) ∧
    (∀ fuel c nm body decs,
      JapycEnum.create_from_node c nm body decs = .ok none →
      visit (fuel + 2) c (.classDef nm body decs) =
        .error (.notImplementedError "Unimplemented node: ClassDef")) := by
  refine ⟨?_, ?_, ?_, ?_, ?_⟩
  · intro fuel c k; simp [visit, generic_visit]
  · intro fuel c targets v; simp [visit, generic_visit]
  · intro fuel c v h; simp [visit, generic_visit, h]
  · intro fuel c base attr h; simp [visit, generic_visit, h]
  · intro fuel c nm body decs h; simp [visit, generic_visit, h]

/-- Witness for C6: a `Return` node (unregistered kind), a module-level
assignment, a non-integer constant, an attribute on a non-name, and a
class definition without the enum decorator all fail with
`NotImplementedError`. -/
theorem claim_C6_witness :
    visit 3 [] (.other "Return")
      = .error (.notImplementedError ("Unimplemented node: " ++ "Return")) ∧
    visit 3 [] (.assign [.pyname "x"] (.pyconstant (.int 1)))
      = .error (.notImplementedError "Unimplemented node: Assign") ∧
    visit 3 [] (.pyconstant .otherVal)
      = .error (.notImplementedError "Unimplemented node: Constant") ∧
    visit 3 [] (.pyattribute (.pyconstant .otherVal) "member")
      = .error (.notImplementedError "Unimplemented node: Attribute") ∧
    visit 3 [] (.classDef "C" [] [])
      = .error (.notImplementedError "Unimplemented node: ClassDef") :=
  ⟨claim_C6.1 1 [] "Return",
   claim_C6.2.1 1 [] _ _,
   claim_C6.2.2.1 1 [] .otherVal rfl,
   claim_C6.2.2.2.1 1 [] _ "member" rfl,
   claim_C6.2.2.2.2 1 [] "C" [] [] rfl⟩

/-- C7: lowering an integer literal with an expected type from its caller:
an untyped literal adopts the expected type, or the 64-bit type when no
expected type is supplied; a typed literal that differs from the expected
type fails with the type-mismatch `JapycError`. -/
theorem claim_C7 :
    (∀ (v : Int) (t : LLVMType),
      JapycInteger.emit_code v none (some t) = .ok (.const t v)) ∧
    (∀ v : Int, JapycInteger.emit_code v none none = .ok (.const (.int 64) v)) ∧
    (∀ (v : Int) (t k : LLVMType), t ≠ k →
      JapycInteger.emit_code v (some t) (some k) =
        .error (.japycError "type mismatch")) := by
  refine ⟨fun v t => rfl, fun v => rfl, ?_⟩
  intro v t k hne
  simp [JapycInteger.emit_code, hne]

/-- Witness for C7: an untyped literal adopts `int8`, defaults to `int64`,
and an `int8`-typed literal against an expected `int16` is a mismatch. -/
theorem claim_C7_witness :
    JapycInteger.emit_code 5 none (some (.int 8)) = .ok (.const (.int 8) 5) ∧
    JapycInteger.emit_code 5 none none = .ok (.const (.int 64) 5) ∧
    JapycInteger.emit_code 5 (some (.int 8)) (some (.int 16)) =
      .error (.japycError "type mismatch") :=
  ⟨claim_C7.1 5 _, claim_C7.2.1 5, claim_C7.2.2 5 _ _ (by decide)⟩

/-- C8: lowering a `Call` node whose callee is not in the function table
fails with `KeyError` on the callee's name (the unresolved-symbol error);
when the callee is present — which happens exactly when its definition was
emitted earlier — the emitted call instruction carries the callee's
backend function handle. -/
theorem claim_C8 :
    (∀ fuel st fn args kw,
      fnsGet st.functions fn = none →
      emit_code (fuel + 3) st (.functionCall fn args) kw =
        .error (.keyError fn)) ∧
    (∀ fuel st fn idx v st' kw,
      fnsGet st.functions fn = some idx →
      builder_add st (.call idx []) = .ok (v, st') →
      emit_code (fuel + 3) st (.functionCall fn []) kw = .ok (none, st')) := by
  constructor
  · intro fuel st fn args kw h
    simp [emit_code, JapycFunctionCall.emit_code, h]
  · intro fuel st fn idx v st' kw h hadd
    simp [emit_code, JapycFunctionCall.emit_code, h, emit_args, ok_bind, hadd]

/-- Witness for C8: calling `f` with an empty function table raises
`KeyError`; calling it when it is registered (as after its definition was
emitted) emits a call against its handle. -/
theorem claim_C8_witness :
    emit_code 4 ⟨[], [], none, []⟩ (.functionCall "f" []) none
      = .error (.keyError "f") ∧
    emit_code 4 ⟨[⟨"f", [], .void, []⟩], [("f", 0)], some 0, []⟩
        (.functionCall "f" []) none
      = .ok (none, ⟨[⟨"f", [], .void, [.call 0 []]⟩], [("f", 0)], some 0, []⟩) :=
  ⟨claim_C8.1 1 ⟨[], [], none, []⟩ "f" [] none rfl,
   claim_C8.2 1 ⟨[⟨"f", [], .void, []⟩], [("f", 0)], some 0, []⟩ "f" 0
     (.instr 0 0) _ none rfl rfl⟩

/-- C9: constant folding and literal handling are exact, unbounded integer
arithmetic with no range checking: folding two integer literals yields the
exact mathematical sum or product for ALL integers `a`, `b` (values are
embedded as `Int` because Python integers are unbounded), translation
accepts every integer literal, and literal lowering emits a constant of the
expected width for EVERY value, never rejecting one that does not fit the
width (`nodes.py:209` is only a `TODO: BOUNDS CHECKING`). -/
theorem claim_C9 :
    (∀ fuel c (a b : Int),
      visit (fuel + 5) c
          (.pybinop .add (.pyconstant (.int a)) (.pyconstant (.int b)))
        = .ok (.integer (a + b) none, c)) ∧
    (∀ fuel c (a b : Int),
      visit (fuel + 5) c
          (.pybinop .mult (.pyconstant (.int a)) (.pyconstant (.int b)))
        = .ok (.integer (a * b) none, c)) ∧
    (∀ fuel c (v : Int),
      visit (fuel + 2) c (.pyconstant (.int v)) = .ok (.integer v none, c)) ∧
    (∀ (v : Int) (w : Nat),
      JapycInteger.emit_code v none (some (.int w)) = .ok (.const (.int w) v)) := by
  have hlit : ∀ fuel c (v : Int),
      visit (fuel + 2) c (.pyconstant (.int v)) = .ok (.integer v none, c) := by
    intro fuel c v
    simp [visit, generic_visit, JapycInteger.create_from_node]
  refine ⟨?_, ?_, hlit, fun v w => rfl⟩
  · intro fuel c a b
    show visit ((fuel + 2) + 3) c _ = _
    simp [visit, generic_visit, JapycBinOp.create_from_node,
      JapycInteger.create_from_node, ok_bind, isJapycInteger, intValue]
  · intro fuel c a b
    show visit ((fuel + 2) + 3) c _ = _
    simp [visit, generic_visit, JapycBinOp.create_from_node,
      JapycInteger.create_from_node, ok_bind, isJapycInteger, intValue]

/-- C10: lowering a function definition appends exactly one `ret_void`
terminator to the current builder block immediately after emitting the
body's instructions, whatever the declared return type is — including an
integer return type. -/
theorem claim_C10 : ∀ fuel st name args body return_type kw st₂ b fnB,
    emit_list fuel (function_entry st name args return_type) body kw = .ok st₂ →
    st₂.builder = some b →
    st₂.module[b]? = some fnB →
    emit_code (fuel + 2) st (.functionDef name args body return_type) kw =
      .ok (none, { st₂ with
        module := st₂.module.set b
          { fnB with instrs := fnB.instrs ++ [.retVoid] } }) := by
  intro fuel st name args body return_type kw st₂ b fnB hbody hb hget
  simp [emit_code, JapycFunctionDef.emit_code, hbody, ok_bind, builder_add,
    hb, hget]

/-- Witness for C10: a function declared to return `int64` with an empty
body lowers to a function whose block is exactly one `ret_void`. -/
theorem claim_C10_witness :
    emit_code 3 ⟨[], [], none, []⟩ (.functionDef "f" [] [] (.int 64)) none
      = .ok (none,
          ⟨[⟨"f", [], .int 64, [.retVoid]⟩], [("f", 0)], some 0, []⟩) :=
  claim_C10 1 ⟨[], [], none, []⟩ "f" [] [] (.int 64) none
    ⟨[⟨"f", [], .int 64, []⟩], [("f", 0)], some 0, []⟩ 0
    ⟨"f", [], .int 64, []⟩ rfl rfl rfl
